import Mathlib

/-!
Verification of the idempotent volume service and process startup logic of a
CSI (container storage interface) driver.

The embedding models:
* the data types (`Volume`, `Server`, `CreateOpts`, sentinel errors);
* the backend volume service as a state-passing record of operations
  (`Service σ`), matching the Go interface used by `IdempotentService`;
* the `IdempotentService` wrapper operations (`Create`, `Delete`, `Attach`,
  `Detach`) translated statement by statement from the Go source;
* an oracle instantiation whose state is the list of backend calls issued,
  used to reason about which calls an operation performs;
* the in-memory `sanityVolumeService` backend from the driver's sanity test;
* the process startup sequence of `main` (endpoint check, socket removal,
  self-server fetch, listener bind, readiness flip).
-/

namespace HCloudCSI

/-- A compute server, identified by its backend-assigned ID. -/
structure Server where
  id : Nat
deriving DecidableEq, Repr

/-- A block storage volume as reported by the backend: `server` is the
server it is currently attached to, if any. -/
structure Volume where
  id : Nat
  name : String
  size : Int
  location : String
  server : Option Server
deriving DecidableEq, Repr

/-- Options for creating a volume; `maxSize = 0` means unbounded. -/
structure CreateOpts where
  name : String
  minSize : Int
  maxSize : Int
  location : String
deriving DecidableEq, Repr

/-- Sentinel errors compared by identity in the Go source, plus `other` for
opaque backend failures. -/
inductive Err where
  | volumeAlreadyExists
  | volumeNotFound
  | serverNotFound
  | notAttached
  | other (code : Nat)
deriving DecidableEq, Repr

/-- The backend volume service interface, as used by `IdempotentService`:
each operation consumes and returns backend state of type `σ`.  `getByName`
returns `Except.ok none` when the call succeeds but no volume is found
(the Go `(*Volume, error)` pair being `(nil, nil)`). -/
structure Service (σ : Type) where
  create : σ → CreateOpts → (Except Err Volume) × σ
  getByID : σ → Nat → (Except Err Volume) × σ
  getByName : σ → String → (Except Err (Option Volume)) × σ
  delete : σ → Volume → (Option Err) × σ
  attach : σ → Volume → Server → (Option Err) × σ
  detach : σ → Volume → (Option Err) × σ

variable {σ : Type}

/-- `IdempotentService.Create`: call backend create; on success return the
volume.  On `ErrVolumeAlreadyExists`, look the existing volume up by name;
propagate a lookup error; if the volume vanished, fail with
`ErrVolumeAlreadyExists`; otherwise validate size bounds and location, and
return the existing volume only if all validations pass. -/
def IdempotentService.Create (s : Service σ) (st : σ) (opts : CreateOpts) :
    (Except Err Volume) × σ :=
  match s.create st opts with
  | (Except.ok volume, st1) => (Except.ok volume, st1)
  | (Except.error e, st1) =>
    if e = Err.volumeAlreadyExists then
      match s.getByName st1 opts.name with
      | (Except.error err, st2) => (Except.error err, st2)
      | (Except.ok none, st2) => (Except.error Err.volumeAlreadyExists, st2)
      | (Except.ok (some existingVolume), st2) =>
        if existingVolume.size < opts.minSize then
          (Except.error Err.volumeAlreadyExists, st2)
        else if 0 < opts.maxSize ∧ opts.maxSize < existingVolume.size then
          (Except.error Err.volumeAlreadyExists, st2)
        else if existingVolume.location ≠ opts.location then
          (Except.error Err.volumeAlreadyExists, st2)
        else
          (Except.ok existingVolume, st2)
    else
      (Except.error e, st1)

/-- `IdempotentService.GetByID`: pass-through read. -/
def IdempotentService.GetByID (s : Service σ) (st : σ) (id : Nat) :
    (Except Err Volume) × σ :=
  s.getByID st id

/-- `IdempotentService.GetByName`: pass-through read. -/
def IdempotentService.GetByName (s : Service σ) (st : σ) (name : String) :
    (Except Err (Option Volume)) × σ :=
  s.getByName st name

/-- `IdempotentService.Delete`: best-effort detach with the error discarded,
then backend delete; `ErrVolumeNotFound` and success both map to success,
any other delete error is returned. -/
def IdempotentService.Delete (s : Service σ) (st : σ) (volume : Volume) :
    (Option Err) × σ :=
  let st1 := (s.detach st volume).2
  match s.delete st1 volume with
  | (some e, st2) =>
    if e = Err.volumeNotFound then (none, st2) else (some e, st2)
  | (none, st2) => (none, st2)

/-- `IdempotentService.Attach`: read the volume by ID (propagating a read
error); if the read shows it attached to a different server, issue a
best-effort detach whose error is discarded; then call backend attach.  A
failed attach is still reported as success when the pre-read showed the
volume already attached to the requested server. -/
def IdempotentService.Attach (s : Service σ) (st : σ) (volume : Volume)
    (server : Server) : (Option Err) × σ :=
  match s.getByID st volume.id with
  | (Except.error e, st1) => (some e, st1)
  | (Except.ok vol, st1) =>
    let st2 :=
      match vol.server with
      | some volServer =>
        if volServer.id ≠ server.id then (s.detach st1 volume).2 else st1
      | none => st1
    match s.attach st2 volume server with
    | (none, st3) => (none, st3)
    | (some attachErr, st3) =>
      match vol.server with
      | some volServer =>
        if volServer.id = server.id then (none, st3) else (some attachErr, st3)
      | none => (some attachErr, st3)

/-- `IdempotentService.Detach`: backend detach; `ErrNotAttached` and success
both map to success, any other error is returned. -/
def IdempotentService.Detach (s : Service σ) (st : σ) (volume : Volume) :
    (Option Err) × σ :=
  match s.detach st volume with
  | (some e, st1) =>
    if e = Err.notAttached then (none, st1) else (some e, st1)
  | (none, st1) => (none, st1)

/-- A backend call, recorded with its arguments. -/
inductive Call where
  | create (opts : CreateOpts)
  | getByID (id : Nat)
  | getByName (name : String)
  | delete (volume : Volume)
  | attach (volume : Volume) (server : Server)
  | detach (volume : Volume)
deriving DecidableEq, Repr

/-- Fixed responses for each backend operation, used to analyse the wrapper
on an arbitrary backend behaviour. -/
structure Oracle where
  createRes : CreateOpts → Except Err Volume
  getByIDRes : Nat → Except Err Volume
  getByNameRes : String → Except Err (Option Volume)
  deleteRes : Volume → Option Err
  attachRes : Volume → Server → Option Err
  detachRes : Volume → Option Err

/-- The service that answers from the oracle and records each call issued,
in order, as its state. -/
def Oracle.service (o : Oracle) : Service (List Call) where
  create := fun tr opts => (o.createRes opts, tr ++ [Call.create opts])
  getByID := fun tr id => (o.getByIDRes id, tr ++ [Call.getByID id])
  getByName := fun tr name => (o.getByNameRes name, tr ++ [Call.getByName name])
  delete := fun tr v => (o.deleteRes v, tr ++ [Call.delete v])
  attach := fun tr v s => (o.attachRes v s, tr ++ [Call.attach v s])
  detach := fun tr v => (o.detachRes v, tr ++ [Call.detach v])

/-- `sanityVolumeService.Create` from the driver sanity test: reject with
`ErrVolumeAlreadyExists` when a stored volume already carries the requested
name; otherwise append a fresh volume of size `opts.minSize` with
ID `length + 1`. -/
def sanityCreate (st : List Volume) (opts : CreateOpts) :
    (Except Err Volume) × List Volume :=
  if (st.find? (fun v => v.name == opts.name)).isSome then
    (Except.error Err.volumeAlreadyExists, st)
  else
    let volume : Volume :=
      { id := st.length + 1, name := opts.name, size := opts.minSize,
        location := opts.location, server := none }
    (Except.ok volume, st ++ [volume])

/-- `sanityVolumeService.GetByID`: first stored volume with the given ID, or
`ErrVolumeNotFound`. -/
def sanityGetByID (st : List Volume) (id : Nat) :
    (Except Err Volume) × List Volume :=
  match st.find? (fun v => v.id == id) with
  | some v => (Except.ok v, st)
  | none => (Except.error Err.volumeNotFound, st)

/-- `sanityVolumeService.GetByName`: first stored volume with the given
name, or `ErrVolumeNotFound`. -/
def sanityGetByName (st : List Volume) (name : String) :
    (Except Err (Option Volume)) × List Volume :=
  match st.find? (fun v => v.name == name) with
  | some v => (Except.ok (some v), st)
  | none => (Except.error Err.volumeNotFound, st)

/-- `sanityVolumeService.Delete`: remove the first stored volume with the
given ID, or report `ErrVolumeNotFound`. -/
def sanityDelete (st : List Volume) (volume : Volume) :
    (Option Err) × List Volume :=
  if (st.find? (fun v => v.id == volume.id)).isSome then
    (none, st.eraseP (fun v => v.id == volume.id))
  else
    (some Err.volumeNotFound, st)

/-- The in-memory backend of the driver sanity test: attach and detach
always succeed and change nothing. -/
def sanityService : Service (List Volume) where
  create := sanityCreate
  getByID := sanityGetByID
  getByName := sanityGetByName
  delete := sanityDelete
  attach := fun st _ _ => (none, st)
  detach := fun st _ => (none, st)

/-- All stored volume names are pairwise distinct. -/
def namesNodup (st : List Volume) : Prop :=
  (st.map Volume.name).Nodup

/-- Result of `os.Remove` on the socket path: `notExist` models an error
satisfying `os.IsNotExist`. -/
inductive OSErr where
  | notExist
  | other (code : Nat)
deriving DecidableEq, Repr

/-- Observable startup events of `main`, in program order. -/
inductive MainEv where
  | removeSocket (path : String)
  | bindListener (path : String)
  | fetchServer (id : Int)
  | setReady (ready : Bool)
deriving DecidableEq, Repr

/-- How the process run ends: `exit code`, or serving RPCs. -/
inductive MainOutcome where
  | exit (code : Nat)
  | serving
deriving DecidableEq, Repr

/-- The environment `main` runs against: environment variables (empty
string means unset, as with `os.Getenv`) and the outcome of each external
call it makes. -/
structure MainEnv where
  csiEndpoint : String
  hcloudToken : String
  removeRes : Option OSErr
  serverID : Except Unit Int
  fetchRes : Except Unit Server
  listenRes : Option Unit
  serveRes : Option Unit

/-- The part of `main` after the socket file removal succeeded (or failed
with a not-exist error): token check, server ID resolution, self-server
fetch, listener bind, readiness flip, serve. -/
def runMainAfterRemove (env : MainEnv) (endpoint : String)
    (evs : List MainEv) : MainOutcome × List MainEv :=
  if env.hcloudToken = "" then (MainOutcome.exit 2, evs)
  else
    match env.serverID with
    | Except.error _ => (MainOutcome.exit 1, evs)
    | Except.ok sid =>
      match env.fetchRes with
      | Except.error _ => (MainOutcome.exit 1, evs ++ [MainEv.fetchServer sid])
      | Except.ok _ =>
        let evs1 := evs ++ [MainEv.fetchServer sid]
        match env.listenRes with
        | some _ => (MainOutcome.exit 1, evs1 ++ [MainEv.bindListener endpoint])
        | none =>
          let evs2 := evs1 ++ [MainEv.bindListener endpoint, MainEv.setReady true]
          match env.serveRes with
          | some _ => (MainOutcome.exit 1, evs2)
          | none => (MainOutcome.serving, evs2)

/-- `strings.HasPrefix`, stated over the character data of the strings. -/
def hasPrefix (s pre : String) : Bool :=
  s.data.take pre.data.length == pre.data

/-- The startup sequence of `main`: require a `CSI_ENDPOINT` starting with
`unix://`, strip the scheme (`endpoint[7:]`), remove a stale socket file
(tolerating only a not-exist error), then continue with
`runMainAfterRemove`. -/
def runMain (env : MainEnv) : MainOutcome × List MainEv :=
  if env.csiEndpoint = "" then (MainOutcome.exit 2, [])
  else if hasPrefix env.csiEndpoint "unix://" = false then
    (MainOutcome.exit 2, [])
  else
    let endpoint := String.mk (env.csiEndpoint.data.drop 7)
    let evs := [MainEv.removeSocket endpoint]
    if env.removeRes ≠ none ∧ env.removeRes ≠ some OSErr.notExist then
      (MainOutcome.exit 1, evs)
    else
      runMainAfterRemove env endpoint evs

/-- C1: when the backend create reports `VolumeAlreadyExists` and the lookup
by name returns an existing volume, `Create` returns that volume as success
iff its size is at least `minSize`, its size is within `maxSize` whenever
`maxSize > 0`, and its location matches; otherwise it fails with
`VolumeAlreadyExists`. -/
theorem Create_conflict_validation (o : Oracle) (tr : List Call)
    (opts : CreateOpts) (ex : Volume)
    (hc : o.createRes opts = Except.error Err.volumeAlreadyExists)
    (hn : o.getByNameRes opts.name = Except.ok (some ex)) :
    ((IdempotentService.Create o.service tr opts).1 = Except.ok ex ↔
      (opts.minSize ≤ ex.size ∧ (0 < opts.maxSize → ex.size ≤ opts.maxSize) ∧
        ex.location = opts.location)) ∧
    ((IdempotentService.Create o.service tr opts).1 = Except.ok ex ∨
      (IdempotentService.Create o.service tr opts).1 =
        Except.error Err.volumeAlreadyExists) := by
  simp only [IdempotentService.Create, Oracle.service, hc, hn]
  split_ifs with h1 h2 h3 <;> simp_all

/-- C5: when the backend create reports `VolumeAlreadyExists` but the lookup
by name succeeds with no volume (it vanished in a race), `Create` fails with
`VolumeAlreadyExists`, having issued exactly one create and one read. -/
theorem Create_vanished_race (o : Oracle) (tr : List Call) (opts : CreateOpts)
    (hc : o.createRes opts = Except.error Err.volumeAlreadyExists)
    (hn : o.getByNameRes opts.name = Except.ok none) :
    IdempotentService.Create o.service tr opts =
      (Except.error Err.volumeAlreadyExists,
        tr ++ [Call.create opts, Call.getByName opts.name]) := by
  simp [IdempotentService.Create, Oracle.service, hc, hn]

/-- C10: when the backend create reports `VolumeAlreadyExists`, the rest of
`Create` issues exactly one further backend call, the read `GetByName`, and
any volume it returns is exactly the one that read reported. -/
theorem Create_conflict_frame (o : Oracle) (tr : List Call) (opts : CreateOpts)
    (hc : o.createRes opts = Except.error Err.volumeAlreadyExists) :
    (IdempotentService.Create o.service tr opts).2 =
      tr ++ [Call.create opts, Call.getByName opts.name] ∧
    (∀ v, (IdempotentService.Create o.service tr opts).1 = Except.ok v →
      o.getByNameRes opts.name = Except.ok (some v)) := by
  simp only [IdempotentService.Create, Oracle.service, hc]
  cases hn : o.getByNameRes opts.name with
  | error e => simp [hn]
  | ok ov =>
    cases ov with
    | none => simp [hn]
    | some ex =>
      simp only [hn]
      split_ifs <;> simp_all

/-- C2: when the pre-read of the volume succeeds, `Attach` issues the read,
then a detach exactly when the pre-read shows attachment to a different
server, then the backend attach; a failed attach is reported as success iff
the pre-read showed the volume attached to the requested server. -/
theorem Attach_pre_read_behaviour (o : Oracle) (tr : List Call)
    (volume : Volume) (server : Server) (vol : Volume)
    (h : o.getByIDRes volume.id = Except.ok vol) :
    IdempotentService.Attach o.service tr volume server =
      ((match o.attachRes volume server with
        | none => none
        | some e =>
          match vol.server with
          | some volServer => if volServer.id = server.id then none else some e
          | none => some e),
       tr ++ [Call.getByID volume.id] ++
         (match vol.server with
          | some volServer =>
            if volServer.id ≠ server.id then [Call.detach volume] else []
          | none => []) ++ [Call.attach volume server]) := by
  simp only [IdempotentService.Attach, Oracle.service, h]
  cases hs : vol.server with
  | none =>
    cases ha : o.attachRes volume server <;> simp [ha]
  | some volServer =>
    by_cases hid : volServer.id = server.id <;>
      cases ha : o.attachRes volume server <;> simp [ha, hid]

/-- C9: when the pre-read of the volume fails, `Attach` returns that error
and issues no further backend call (no detach, no attach). -/
theorem Attach_read_error (o : Oracle) (tr : List Call) (volume : Volume)
    (server : Server) (e : Err)
    (h : o.getByIDRes volume.id = Except.error e) :
    IdempotentService.Attach o.service tr volume server =
      (some e, tr ++ [Call.getByID volume.id]) := by
  simp [IdempotentService.Attach, Oracle.service, h]

/-- C4: `Delete` issues a detach whose result is discarded, then the backend
delete, returning success on delete success or `VolumeNotFound` and the
delete error otherwise; on the sanity backend, deleting a volume twice (or a
nonexistent one) returns success both times. -/
theorem Delete_behaviour :
    (∀ (o : Oracle) (tr : List Call) (volume : Volume),
      IdempotentService.Delete o.service tr volume =
        ((match o.deleteRes volume with
          | some e => if e = Err.volumeNotFound then none else some e
          | none => none),
         tr ++ [Call.detach volume, Call.delete volume])) ∧
    (∀ (st : List Volume) (volume : Volume),
      (IdempotentService.Delete sanityService st volume).1 = none ∧
      (IdempotentService.Delete sanityService
        (IdempotentService.Delete sanityService st volume).2 volume).1 =
          none) := by
  constructor
  · intro o tr volume
    simp only [IdempotentService.Delete, Oracle.service]
    cases hd : o.deleteRes volume with
    | none => simp [hd]
    | some e => by_cases he : e = Err.volumeNotFound <;> simp [hd, he]
  · have hone : ∀ (st : List Volume) (volume : Volume),
        (IdempotentService.Delete sanityService st volume).1 = none := by
      intro st volume
      simp only [IdempotentService.Delete, sanityService, sanityDelete]
      split_ifs <;> simp_all
    intro st volume
    exact ⟨hone st volume, hone _ volume⟩

/-- C6: `Detach` returns success when the backend detach succeeds or reports
`NotAttached`, and returns the backend error in every other case. -/
theorem Detach_behaviour (o : Oracle) (tr : List Call) (volume : Volume) :
    IdempotentService.Detach o.service tr volume =
      ((match o.detachRes volume with
        | some e => if e = Err.notAttached then none else some e
        | none => none),
       tr ++ [Call.detach volume]) := by
  simp only [IdempotentService.Detach, Oracle.service]
  cases hd : o.detachRes volume with
  | none => simp [hd]
  | some e => by_cases he : e = Err.notAttached <;> simp [hd, he]

/-- On the sanity backend, when a stored volume already carries the
requested name, `Create` leaves the state unchanged and returns the result
of validating that volume. -/
theorem Create_sanity_conflict (st : List Volume) (opts : CreateOpts)
    (w : Volume)
    (hfind : st.find? (fun v => v.name == opts.name) = some w) :
    IdempotentService.Create sanityService st opts =
      ((if w.size < opts.minSize then Except.error Err.volumeAlreadyExists
        else if 0 < opts.maxSize ∧ opts.maxSize < w.size then
          Except.error Err.volumeAlreadyExists
        else if w.location ≠ opts.location then
          Except.error Err.volumeAlreadyExists
        else Except.ok w), st) := by
  have hc : sanityCreate st opts = (Except.error Err.volumeAlreadyExists, st) := by
    simp [sanityCreate, hfind]
  have hg : sanityGetByName st opts.name = (Except.ok (some w), st) := by
    simp [sanityGetByName, hfind]
  simp only [IdempotentService.Create, sanityService, hc, hg]
  split_ifs <;> simp_all

/-- On the sanity backend, when no stored volume carries the requested name,
`Create` appends a fresh volume of size `minSize` with ID `length + 1` and
returns it. -/
theorem Create_sanity_fresh (st : List Volume) (opts : CreateOpts)
    (hfind : st.find? (fun v => v.name == opts.name) = none) :
    IdempotentService.Create sanityService st opts =
      (Except.ok ⟨st.length + 1, opts.name, opts.minSize, opts.location, none⟩,
       st ++ [⟨st.length + 1, opts.name, opts.minSize, opts.location, none⟩]) := by
  simp [IdempotentService.Create, sanityService, sanityCreate, hfind]

/-- C3 counterexample: with `minSize = 2` and `maxSize = 1`, the first
`Create` on the empty sanity backend succeeds, but replaying it fails with
`VolumeAlreadyExists` instead of returning the same volume. -/
theorem Create_twice_cex :
    (IdempotentService.Create sanityService []
      ⟨"a", 2, 1, "l"⟩).1 = Except.ok ⟨1, "a", 2, "l", none⟩ ∧
    (IdempotentService.Create sanityService
      (IdempotentService.Create sanityService [] ⟨"a", 2, 1, "l"⟩).2
      ⟨"a", 2, 1, "l"⟩).1 = Except.error Err.volumeAlreadyExists :=
  ⟨rfl, rfl⟩

/-- C3 (amended): for options whose `maxSize` is unset (nonpositive) or at
least `minSize`, replaying `Create` on the sanity backend returns the same
volume as the first successful call, and no two stored volumes ever share a
name. -/
theorem Create_twice_same_identity (opts : CreateOpts) (st0 : List Volume)
    (wf : opts.maxSize ≤ 0 ∨ opts.minSize ≤ opts.maxSize) :
    (∀ v1, (IdempotentService.Create sanityService st0 opts).1 =
        Except.ok v1 →
      (IdempotentService.Create sanityService
          (IdempotentService.Create sanityService st0 opts).2 opts).1 =
        Except.ok v1) ∧
    (namesNodup st0 →
      namesNodup (IdempotentService.Create sanityService
        (IdempotentService.Create sanityService st0 opts).2 opts).2) := by
  cases hfind : st0.find? (fun v => v.name == opts.name) with
  | some w =>
    have h1 := Create_sanity_conflict st0 opts w hfind
    constructor
    · intro v1 hv1
      simp only [h1] at hv1 ⊢
      exact hv1
    · intro hnd
      simp only [h1]
      exact hnd
  | none =>
    have h1 := Create_sanity_fresh st0 opts hfind
    have hfind2 : (st0 ++
        [(⟨st0.length + 1, opts.name, opts.minSize, opts.location, none⟩ :
          Volume)]).find? (fun v => v.name == opts.name) =
        some ⟨st0.length + 1, opts.name, opts.minSize, opts.location, none⟩ := by
      simp [List.find?_append, hfind]
    have h2 := Create_sanity_conflict _ opts _ hfind2
    have hval : (IdempotentService.Create sanityService
        (st0 ++ [(⟨st0.length + 1, opts.name, opts.minSize, opts.location,
          none⟩ : Volume)]) opts) =
        (Except.ok ⟨st0.length + 1, opts.name, opts.minSize, opts.location,
          none⟩,
         st0 ++ [⟨st0.length + 1, opts.name, opts.minSize, opts.location,
          none⟩]) := by
      rw [h2]
      have ha : ¬ ((⟨st0.length + 1, opts.name, opts.minSize, opts.location,
          none⟩ : Volume).size < opts.minSize) := by
        show ¬ (opts.minSize < opts.minSize)
        omega
      have hb : ¬ (0 < opts.maxSize ∧ opts.maxSize <
          (⟨st0.length + 1, opts.name, opts.minSize, opts.location,
            none⟩ : Volume).size) := by
        show ¬ (0 < opts.maxSize ∧ opts.maxSize < opts.minSize)
        rcases wf with hm | hm <;> omega
      have hc : ¬ ((⟨st0.length + 1, opts.name, opts.minSize, opts.location,
          none⟩ : Volume).location ≠ opts.location) := by
        show ¬ (opts.location ≠ opts.location)
        simp
      rw [if_neg ha, if_neg hb, if_neg hc]
    constructor
    · intro v1 hv1
      simp only [h1] at hv1 ⊢
      rw [hval]
      exact hv1
    · intro hnd
      simp only [h1, hval]
      have hnotmem : opts.name ∉ st0.map Volume.name := by
        intro hmem
        obtain ⟨x, hx, hxe⟩ := List.mem_map.mp hmem
        exact (List.find?_eq_none.mp hfind x hx) (by simp [hxe])
      unfold namesNodup at hnd ⊢
      rw [List.map_append, List.nodup_append]
      exact ⟨hnd, List.nodup_singleton _, by
        simp only [List.map_cons, List.map_nil, List.disjoint_singleton]
        simpa using hnotmem⟩

/-- After the socket removal, a readiness flip recorded in the event list
(beyond those already present) implies the self-server fetch succeeded. -/
theorem runMainAfterRemove_ready (env : MainEnv) (endpoint : String)
    (evs : List MainEv) (hevs : MainEv.setReady true ∉ evs)
    (hmem : MainEv.setReady true ∈ (runMainAfterRemove env endpoint evs).2) :
    ∃ s, env.fetchRes = Except.ok s := by
  by_cases ht : env.hcloudToken = ""
  · simp [runMainAfterRemove, ht] at hmem
    exact absurd hmem hevs
  · cases hsid : env.serverID with
    | error u =>
      simp [runMainAfterRemove, ht, hsid] at hmem
      exact absurd hmem hevs
    | ok sid =>
      cases hf : env.fetchRes with
      | error u =>
        simp [runMainAfterRemove, ht, hsid, hf] at hmem
        simp_all
      | ok s => exact ⟨s, rfl⟩

/-- After the socket removal, a failed self-server fetch means the process
exits without flipping readiness. -/
theorem runMainAfterRemove_fetch_error (env : MainEnv) (endpoint : String)
    (evs : List MainEv) (hf : env.fetchRes = Except.error ())
    (hevs : MainEv.setReady true ∉ evs) :
    MainEv.setReady true ∉ (runMainAfterRemove env endpoint evs).2 ∧
    ∃ c, (runMainAfterRemove env endpoint evs).1 = MainOutcome.exit c := by
  by_cases ht : env.hcloudToken = ""
  · refine ⟨?_, 2, ?_⟩ <;> simp [runMainAfterRemove, ht]
    exact hevs
  · cases hsid : env.serverID with
    | error u =>
      refine ⟨?_, 1, ?_⟩ <;> simp [runMainAfterRemove, ht, hsid]
      exact hevs
    | ok sid =>
      refine ⟨?_, 1, ?_⟩ <;> simp [runMainAfterRemove, ht, hsid, hf]
      exact hevs

/-- The events produced after the socket removal extend the given prefix
with one of four concrete suffixes, binding only the given endpoint. -/
theorem runMainAfterRemove_events (env : MainEnv) (endpoint : String)
    (evs : List MainEv) :
    (runMainAfterRemove env endpoint evs).2 = evs ∨
    (∃ sid, (runMainAfterRemove env endpoint evs).2 =
      evs ++ [MainEv.fetchServer sid]) ∨
    (∃ sid, (runMainAfterRemove env endpoint evs).2 =
      evs ++ [MainEv.fetchServer sid, MainEv.bindListener endpoint]) ∨
    (∃ sid, (runMainAfterRemove env endpoint evs).2 =
      evs ++ [MainEv.fetchServer sid, MainEv.bindListener endpoint,
        MainEv.setReady true]) := by
  by_cases ht : env.hcloudToken = ""
  · left; simp [runMainAfterRemove, ht]
  · cases hsid : env.serverID with
    | error u => left; simp [runMainAfterRemove, ht, hsid]
    | ok sid =>
      cases hf : env.fetchRes with
      | error u =>
        right; left
        exact ⟨sid, by simp [runMainAfterRemove, ht, hsid, hf]⟩
      | ok s =>
        cases hl : env.listenRes with
        | some u =>
          right; right; left
          exact ⟨sid, by simp [runMainAfterRemove, ht, hsid, hf, hl]⟩
        | none =>
          cases hv : env.serveRes with
          | some u =>
            right; right; right
            exact ⟨sid, by simp [runMainAfterRemove, ht, hsid, hf, hl, hv]⟩
          | none =>
            right; right; right
            exact ⟨sid, by simp [runMainAfterRemove, ht, hsid, hf, hl, hv]⟩

/-- On a well-formed endpoint, `runMain` reduces to the removal-failure
check followed by `runMainAfterRemove`. -/
theorem runMain_valid (env : MainEnv) (he : ¬ env.csiEndpoint = "")
    (hu : hasPrefix env.csiEndpoint "unix://" = true) :
    runMain env =
      if env.removeRes ≠ none ∧ env.removeRes ≠ some OSErr.notExist then
        (MainOutcome.exit 1,
          [MainEv.removeSocket (String.mk (env.csiEndpoint.data.drop 7))])
      else
        runMainAfterRemove env (String.mk (env.csiEndpoint.data.drop 7))
          [MainEv.removeSocket (String.mk (env.csiEndpoint.data.drop 7))] := by
  rw [runMain, if_neg he, if_neg (by simp [hu])]

/-- C7: the readiness flip `SetReady(true)` happens only on startup runs
where the self-server fetch succeeded, and a failed fetch terminates the
process with an exit, never reaching the readiness flip. -/
theorem readiness_requires_handshake :
    (∀ env : MainEnv, MainEv.setReady true ∈ (runMain env).2 →
      ∃ s, env.fetchRes = Except.ok s) ∧
    (∀ env : MainEnv, env.fetchRes = Except.error () →
      MainEv.setReady true ∉ (runMain env).2 ∧
      ∃ c, (runMain env).1 = MainOutcome.exit c) := by
  have hnot : ∀ p : String,
      MainEv.setReady true ∉ [MainEv.removeSocket p] := by
    intro p hmem
    simp at hmem
  constructor
  · intro env hmem
    by_cases he : env.csiEndpoint = ""
    · simp [runMain, he] at hmem
    · cases hu : hasPrefix env.csiEndpoint "unix://" with
      | false => simp [runMain, he, hu] at hmem
      | true =>
        rw [runMain_valid env he hu] at hmem
        by_cases hhard : env.removeRes ≠ none ∧
            env.removeRes ≠ some OSErr.notExist
        · rw [if_pos hhard] at hmem
          exact absurd hmem (hnot _)
        · rw [if_neg hhard] at hmem
          exact runMainAfterRemove_ready env _ _ (hnot _) hmem
  · intro env hf
    by_cases he : env.csiEndpoint = ""
    · refine ⟨?_, 2, ?_⟩ <;> simp [runMain, he]
    · cases hu : hasPrefix env.csiEndpoint "unix://" with
      | false => refine ⟨?_, 2, ?_⟩ <;> simp [runMain, he, hu]
      | true =>
        rw [runMain_valid env he hu]
        by_cases hhard : env.removeRes ≠ none ∧
            env.removeRes ≠ some OSErr.notExist
        · rw [if_pos hhard]
          exact ⟨hnot _, 1, rfl⟩
        · rw [if_neg hhard]
          exact runMainAfterRemove_fetch_error env _ _ hf (hnot _)

/-- C8: every bind of a listener is preceded by the removal of the stale
socket at the same path (the removal is the first startup event); an
endpoint not starting with `unix://` is rejected before any removal; and a
removal failure other than not-exist makes the process exit without ever
binding. -/
theorem socket_removal_before_bind :
    (∀ (env : MainEnv) (p : String),
      MainEv.bindListener p ∈ (runMain env).2 →
      ∃ rest, (runMain env).2 = MainEv.removeSocket p :: rest ∧
        MainEv.bindListener p ∈ rest) ∧
    (∀ env : MainEnv, ¬ env.csiEndpoint = "" →
      hasPrefix env.csiEndpoint "unix://" = false →
      (runMain env).1 = MainOutcome.exit 2 ∧
      ∀ p, MainEv.removeSocket p ∉ (runMain env).2) ∧
    (∀ env : MainEnv,
      env.removeRes ≠ none → env.removeRes ≠ some OSErr.notExist →
      ((runMain env).1 = MainOutcome.exit 1 ∨
        (runMain env).1 = MainOutcome.exit 2) ∧
      ∀ p, MainEv.bindListener p ∉ (runMain env).2) := by
  refine ⟨?_, ?_, ?_⟩
  · intro env p hmem
    by_cases he : env.csiEndpoint = ""
    · simp [runMain, he] at hmem
    · cases hu : hasPrefix env.csiEndpoint "unix://" with
      | false => simp [runMain, he, hu] at hmem
      | true =>
        rw [runMain_valid env he hu] at hmem ⊢
        by_cases hhard : env.removeRes ≠ none ∧
            env.removeRes ≠ some OSErr.notExist
        · rw [if_pos hhard] at hmem
          simp at hmem
        · rw [if_neg hhard] at hmem ⊢
          rcases runMainAfterRemove_events env (String.mk (env.csiEndpoint.data.drop 7))
              [MainEv.removeSocket (String.mk (env.csiEndpoint.data.drop 7))] with
            h | ⟨sid, h⟩ | ⟨sid, h⟩ | ⟨sid, h⟩ <;> rw [h] at hmem ⊢
          · simp at hmem
          · simp at hmem
          · have hp : p = String.mk (env.csiEndpoint.data.drop 7) := by simpa using hmem
            subst hp
            exact ⟨_, rfl, by simp⟩
          · have hp : p = String.mk (env.csiEndpoint.data.drop 7) := by simpa using hmem
            subst hp
            exact ⟨_, rfl, by simp⟩
  · intro env he hu
    refine ⟨?_, ?_⟩ <;> simp [runMain, he, hu]
  · intro env h1 h2
    by_cases he : env.csiEndpoint = ""
    · refine ⟨Or.inr ?_, ?_⟩ <;> simp [runMain, he]
    · cases hu : hasPrefix env.csiEndpoint "unix://" with
      | false => refine ⟨Or.inr ?_, ?_⟩ <;> simp [runMain, he, hu]
      | true =>
        rw [runMain_valid env he hu, if_pos ⟨h1, h2⟩]
        refine ⟨Or.inl rfl, ?_⟩
        intro p
        simp

/-- A concrete existing volume used to instantiate the oracle theorems. -/
def exVolume : Volume := ⟨7, "vol", 12, "fsn1", none⟩

/-- Concrete create options compatible with `exVolume`. -/
def optsA : CreateOpts := ⟨"vol", 10, 20, "fsn1"⟩

/-- Backend answers: create conflicts, the name lookup finds `exVolume`. -/
def oracleA : Oracle where
  createRes := fun _ => Except.error Err.volumeAlreadyExists
  getByIDRes := fun _ => Except.error Err.volumeNotFound
  getByNameRes := fun _ => Except.ok (some exVolume)
  deleteRes := fun _ => none
  attachRes := fun _ _ => some (Err.other 0)
  detachRes := fun _ => none

/-- Backend answers: create conflicts, the name lookup finds nothing. -/
def oracleB : Oracle where
  createRes := fun _ => Except.error Err.volumeAlreadyExists
  getByIDRes := fun _ => Except.error Err.volumeNotFound
  getByNameRes := fun _ => Except.ok none
  deleteRes := fun _ => none
  attachRes := fun _ _ => none
  detachRes := fun _ => none

/-- A volume currently attached to server 5. -/
def volAttached : Volume := ⟨3, "w", 10, "loc", some ⟨5⟩⟩

/-- Backend answers: the ID read shows `volAttached`, attach fails. -/
def oracleC : Oracle where
  createRes := fun _ => Except.error (Err.other 1)
  getByIDRes := fun _ => Except.ok volAttached
  getByNameRes := fun _ => Except.ok none
  deleteRes := fun _ => none
  attachRes := fun _ _ => some (Err.other 2)
  detachRes := fun _ => some Err.notAttached

/-- Backend answers: the ID read itself fails. -/
def oracleD : Oracle where
  createRes := fun _ => Except.error (Err.other 1)
  getByIDRes := fun _ => Except.error Err.serverNotFound
  getByNameRes := fun _ => Except.ok none
  deleteRes := fun _ => none
  attachRes := fun _ _ => none
  detachRes := fun _ => none

/-- Witness for C1 at a concrete conflicting create. -/
theorem Create_conflict_validation_witness :
    ((IdempotentService.Create oracleA.service [] optsA).1 =
        Except.ok exVolume ↔
      (optsA.minSize ≤ exVolume.size ∧
        (0 < optsA.maxSize → exVolume.size ≤ optsA.maxSize) ∧
        exVolume.location = optsA.location)) ∧
    ((IdempotentService.Create oracleA.service [] optsA).1 =
        Except.ok exVolume ∨
      (IdempotentService.Create oracleA.service [] optsA).1 =
        Except.error Err.volumeAlreadyExists) :=
  Create_conflict_validation oracleA [] optsA exVolume rfl rfl

/-- Witness for C5 at a concrete vanished volume. -/
theorem Create_vanished_race_witness :
    IdempotentService.Create oracleB.service [] optsA =
      (Except.error Err.volumeAlreadyExists,
        [] ++ [Call.create optsA, Call.getByName optsA.name]) :=
  Create_vanished_race oracleB [] optsA rfl rfl

/-- Witness for C10 at a concrete conflicting create. -/
theorem Create_conflict_frame_witness :
    (IdempotentService.Create oracleA.service [] optsA).2 =
      [] ++ [Call.create optsA, Call.getByName optsA.name] ∧
    (∀ v, (IdempotentService.Create oracleA.service [] optsA).1 =
        Except.ok v →
      oracleA.getByNameRes optsA.name = Except.ok (some v)) :=
  Create_conflict_frame oracleA [] optsA rfl

/-- Witness for C2 at a volume attached to a different server whose attach
call fails. -/
theorem Attach_pre_read_behaviour_witness :
    IdempotentService.Attach oracleC.service [] volAttached ⟨9⟩ =
      (some (Err.other 2),
       [Call.getByID 3, Call.detach volAttached,
        Call.attach volAttached ⟨9⟩]) := by
  rw [Attach_pre_read_behaviour oracleC [] volAttached ⟨9⟩ volAttached rfl]
  decide

/-- Witness for C9 at a failing ID read. -/
theorem Attach_read_error_witness :
    IdempotentService.Attach oracleD.service [] exVolume ⟨9⟩ =
      (some Err.serverNotFound, [Call.getByID 7]) := by
  rw [Attach_read_error oracleD [] exVolume ⟨9⟩ Err.serverNotFound rfl]
  decide

/-- Witness for C3 (amended) at a concrete replayed create. -/
theorem Create_twice_same_identity_witness :
    (IdempotentService.Create sanityService
        (IdempotentService.Create sanityService [] ⟨"a", 5, 0, "l"⟩).2
        ⟨"a", 5, 0, "l"⟩).1 = Except.ok ⟨1, "a", 5, "l", none⟩ :=
  (Create_twice_same_identity ⟨"a", 5, 0, "l"⟩ [] (Or.inl (by decide))).1
    ⟨1, "a", 5, "l", none⟩ rfl

/-- A startup environment where every external call succeeds. -/
def envGood : MainEnv :=
  { csiEndpoint := "unix:///csi/csi.sock", hcloudToken := "token",
    removeRes := none, serverID := Except.ok 42,
    fetchRes := Except.ok ⟨42⟩, listenRes := none, serveRes := none }

/-- A startup environment whose self-server fetch fails. -/
def envBadFetch : MainEnv :=
  { csiEndpoint := "unix:///csi/csi.sock", hcloudToken := "token",
    removeRes := none, serverID := Except.ok 42,
    fetchRes := Except.error (), listenRes := none, serveRes := none }

/-- A startup environment with a non-unix endpoint scheme. -/
def envBadScheme : MainEnv :=
  { csiEndpoint := "tcp://0.0.0.0:10000", hcloudToken := "token",
    removeRes := none, serverID := Except.ok 42,
    fetchRes := Except.ok ⟨42⟩, listenRes := none, serveRes := none }

/-- A startup environment whose socket removal fails hard. -/
def envRemoveFail : MainEnv :=
  { csiEndpoint := "unix:///csi/csi.sock", hcloudToken := "token",
    removeRes := some (OSErr.other 13), serverID := Except.ok 42,
    fetchRes := Except.ok ⟨42⟩, listenRes := none, serveRes := none }

/-- Witness for C7 at a successful startup and at a failed fetch. -/
theorem readiness_requires_handshake_witness :
    (∃ s, envGood.fetchRes = Except.ok s) ∧
    (MainEv.setReady true ∉ (runMain envBadFetch).2 ∧
      ∃ c, (runMain envBadFetch).1 = MainOutcome.exit c) :=
  ⟨readiness_requires_handshake.1 envGood (by decide),
   readiness_requires_handshake.2 envBadFetch rfl⟩

/-- Witness for C8 at a successful startup, a bad scheme, and a failed
socket removal. -/
theorem socket_removal_before_bind_witness :
    (∃ rest, (runMain envGood).2 =
      MainEv.removeSocket "/csi/csi.sock" :: rest ∧
      MainEv.bindListener "/csi/csi.sock" ∈ rest) ∧
    ((runMain envBadScheme).1 = MainOutcome.exit 2 ∧
      ∀ p, MainEv.removeSocket p ∉ (runMain envBadScheme).2) ∧
    (((runMain envRemoveFail).1 = MainOutcome.exit 1 ∨
        (runMain envRemoveFail).1 = MainOutcome.exit 2) ∧
      ∀ p, MainEv.bindListener p ∉ (runMain envRemoveFail).2) :=
  ⟨socket_removal_before_bind.1 envGood "/csi/csi.sock" (by decide),
   socket_removal_before_bind.2.1 envBadScheme (by decide) (by decide),
   socket_removal_before_bind.2.2 envRemoveFail (by decide) (by decide)⟩

end HCloudCSI
